import Mathlib

/-!
Verification development for the Saving Planner program
(`final-project/currentversion-final-project.py`).

Python `float` arithmetic is modelled by exact rationals (`ℚ`), Python
`int` by `ℤ`.  Fallible operations (`raise`, `ZeroDivisionError`,
uncaught exceptions) are modelled with `Except`.  The persisted file
`the-plan.txt` is modelled as a list of records (one list element per
written line); the textual pipe-delimited encoding is modelled
separately for the loader, which is where the program parses text.
-/

deriving instance DecidableEq for Except

/-- Python `int(x)` applied to a float: truncation toward zero. -/
def pyInt (q : ℚ) : ℤ := if 0 ≤ q then ⌊q⌋ else -⌊-q⌋

-- =================
-- Input Validation
-- =================

/-- Numeric value of a decimal digit character. -/
def digitVal (c : Char) : ℕ := c.toNat - 48

/-- Value of a list of decimal digit characters (most significant first). -/
def digitsVal (cs : List Char) : ℕ :=
  cs.foldl (fun acc c => acc * 10 + digitVal c) 0

/-- Split a leading sign character off a character list, returning
whether the number is negated and the remainder. -/
def splitSign : List Char → Bool × List Char
  | '-' :: rest => (true, rest)
  | '+' :: rest => (false, rest)
  | cs => (false, cs)

/-- Rational value of a parsed decimal literal: sign, integer-part
value, fraction-part value and fraction length. -/
def ratVal (neg : Bool) (ip fp fl : ℕ) : ℚ :=
  (if neg then -1 else 1) * ((ip : ℚ) + (fp : ℚ) / (10 : ℚ) ^ fl)

/-- Model of Python `float(s)` on plain decimal literals: optional sign,
integer digits, optional dot and fraction digits; at least one digit in
total; returns `none` where Python raises `ValueError`. -/
def parseFloat (s : String) : Option ℚ :=
  let (neg, cs) := splitSign s.toList
  let intPart := cs.takeWhile Char.isDigit
  let rest := cs.dropWhile Char.isDigit
  match rest with
  | [] =>
      if intPart.isEmpty then none
      else some (ratVal neg (digitsVal intPart) 0 0)
  | '.' :: frac =>
      if frac.all Char.isDigit && !(intPart.isEmpty && frac.isEmpty) then
        some (ratVal neg (digitsVal intPart) (digitsVal frac) frac.length)
      else none
  | _ => none

/-- Integer value of a parsed integer literal. -/
def intVal (neg : Bool) (n : ℕ) : ℤ := if neg then -(n : ℤ) else (n : ℤ)

/-- Model of Python `int(s)`: optional sign followed by decimal digits
only; returns `none` where Python raises `ValueError`. -/
def parseInt (s : String) : Option ℤ :=
  let (neg, ds) := splitSign s.toList
  if ds.isEmpty then none
  else if ds.all Char.isDigit then some (intVal neg (digitsVal ds))
  else none

/-- Model of `value.replace(",", "").replace(" ", "")`: every comma and
space character is removed. -/
def cleanNumber (s : String) : String :=
  String.mk (s.toList.filter (fun c => !(c == ',' || c == ' ')))

/-- Embedding of `input_validation` (source lines 6-28): strip
commas/spaces, parse as a float, and require the result positive. -/
def input_validation (value : String) : Except String ℚ :=
  match parseFloat (cleanNumber value) with
  | none => .error "must be a number"
  | some number =>
      if number ≤ 0 then .error "must be positive" else .ok number

-- ===========
-- Plan Class
-- ===========

/-- Embedding of the `Plan` class state (source lines 33-55). -/
structure Plan where
  name : String
  allowance : ℚ
  expenses : ℚ
  goal : ℚ
  periods : ℤ
  unit : String
  multiplier : ℤ
  saved_so_far : ℚ
  days_passed : ℤ
deriving DecidableEq

/-- Embedding of `Plan.net` (lines 57-59). -/
def Plan.net (p : Plan) : ℚ := p.allowance - p.expenses

/-- Embedding of `Plan.add_saved` (lines 61-73): raising `ValueError`
is modelled by `Except.error`. -/
def Plan.add_saved (p : Plan) (amount : ℚ) : Except String Plan :=
  if amount ≤ 0 then .error "Saved amount must be positive"
  else .ok { p with
    saved_so_far := p.saved_so_far + amount
    days_passed := p.days_passed + 1 }

/-- Embedding of `Plan.update_allowance` (lines 75-86). -/
def Plan.update_allowance (p : Plan) (new_allowance : ℚ) : Except String Plan :=
  if new_allowance ≤ 0 then .error "Allowance must be positive"
  else .ok { p with allowance := new_allowance }

/-- Embedding of `Plan.update_expenses` (lines 88-99). -/
def Plan.update_expenses (p : Plan) (new_expenses : ℚ) : Except String Plan :=
  if new_expenses ≤ 0 then .error "Expenses must be positive"
  else .ok { p with expenses := new_expenses }

/-- Embedding of `Plan.reset` (lines 101-104). -/
def Plan.reset (p : Plan) : Plan :=
  { p with saved_so_far := 0, days_passed := 0 }

/-- Embedding of `Plan.total_days` (lines 106-108); `periods` and
`multiplier` are already integers, so `int(...)` does not change the
product. -/
def Plan.total_days (p : Plan) : ℤ := p.periods * p.multiplier

/-- Embedding of `Plan.daily_needed` (lines 111-124). -/
def Plan.daily_needed (p : Plan) : ℚ :=
  let remaining := p.goal - p.saved_so_far
  let remaining_days := p.total_days - p.days_passed
  if remaining_days ≤ 0 then 0
  else if remaining < 0 then
    -((p.saved_so_far - p.goal) / (remaining_days : ℚ))
  else remaining / (remaining_days : ℚ)

/-- The data-model invariants the specification states for every plan. -/
def planInvariant (p : Plan) : Prop :=
  0 < p.allowance ∧ 0 < p.expenses ∧ 0 < p.goal ∧ 0 < p.periods ∧
    0 ≤ p.saved_so_far ∧ 0 ≤ p.days_passed

instance (p : Plan) : Decidable (planInvariant p) := by
  unfold planInvariant; infer_instance

-- ==============
-- Plans Manager
-- ==============

/-- Python dict insertion `plans[name] = plan`: an existing key keeps
its position and gets the new value; a new key is appended. -/
def insertPlan : List (String × Plan) → Plan → List (String × Plan)
  | [], p => [(p.name, p)]
  | (k, v) :: rest, p =>
      if k = p.name then (k, p) :: rest else (k, v) :: insertPlan rest p

/-- Lookup in the ordered name-to-plan mapping. -/
def lookupPlan : List (String × Plan) → String → Option Plan
  | [], _ => none
  | (k, v) :: rest, n => if k = n then some v else lookupPlan rest n

/-- Embedding of the `PlansManager` state (lines 158-161) together with
the content of `the-plan.txt`: each element of `file` stands for one
pipe-delimited line written to the file. -/
structure PlansManager where
  plans : List (String × Plan)
  file : List Plan
deriving DecidableEq

/-- Embedding of `PlansManager.save_plan` (lines 163-172): stores the
plan in memory and calls `write_plan_to_file` (lines 174-182), which
opens the file in append mode and writes one record. -/
def PlansManager.save_plan (s : PlansManager) (p : Plan) : PlansManager :=
  { plans := insertPlan s.plans p, file := s.file ++ [p] }

/-- Embedding of `PlansManager.write_all_plans_to_file` (lines
184-189): overwrites the file with one record per current plan. -/
def PlansManager.write_all_plans_to_file (s : PlansManager) : PlansManager :=
  { s with file := s.plans.map Prod.snd }

/-- Python whitespace characters handled by `str.strip()` for our
record lines. -/
def isPySpace (c : Char) : Bool :=
  c == ' ' || c == '\t' || c == '\n' || c == '\r'

/-- Model of `line.strip()`. -/
def pyStrip (s : String) : String :=
  String.mk (((s.toList.dropWhile isPySpace).reverse.dropWhile isPySpace).reverse)

/-- Helper for `splitPipe`: splits a character list at every pipe. -/
def splitPipeAux : List Char → List Char → List String
  | [], cur => [String.mk cur.reverse]
  | c :: rest, cur =>
      if c = '|' then String.mk cur.reverse :: splitPipeAux rest []
      else splitPipeAux rest (c :: cur)

/-- Model of `line.split("|")`. -/
def splitPipe (s : String) : List String := splitPipeAux s.toList []

/-- Embedding of the body of the `for line in f` loop of
`PlansManager.load_plans_from_file` (lines 195-210): a line whose field
count is not 9 is skipped; a 9-field line is unpacked and its numeric
fields parsed with `float`/`int`, whose `ValueError` is not caught and
is modelled by `Except.error`. -/
def parseRecordLine (plans : List (String × Plan)) (line : String) :
    Except Unit (List (String × Plan)) :=
  match splitPipe (pyStrip line) with
  | [n, a, e, g, per, u, m, sv, d] =>
      match parseFloat a, parseFloat e, parseFloat g, parseInt per,
          parseInt m, parseFloat sv, parseInt d with
      | some av, some ev, some gv, some pv, some mv, some svv, some dv =>
          .ok (insertPlan plans ⟨n, av, ev, gv, pv, u, mv, svv, dv⟩)
      | _, _, _, _, _, _, _ => .error ()
  | _ => .ok plans

/-- Embedding of `PlansManager.load_plans_from_file` (lines 191-212):
`none` stands for a missing file (`FileNotFoundError` is caught and the
store stays empty); otherwise the lines are folded through
`parseRecordLine`. -/
def load_plans_from_file (file : Option (List String)) :
    Except Unit (List (String × Plan)) :=
  match file with
  | none => .ok []
  | some lines => lines.foldlM parseRecordLine []

-- ===============================
-- Menu 1: Check Goal Feasibility
-- ===============================

/-- The `total_days` quantity of `menu_check_feasibility` (line 298):
`int(duration) * multiplier`. -/
def feasTotalDays (duration : ℚ) (multiplier : ℤ) : ℤ :=
  pyInt duration * multiplier

/-- The `total_saving_possible` quantity (lines 295-299):
`(allowance/multiplier - expenses/multiplier) * total_days`. -/
def feasTotalSaving (allowance expenses duration : ℚ) (multiplier : ℤ) : ℚ :=
  (allowance / (multiplier : ℚ) - expenses / (multiplier : ℚ)) *
    ((feasTotalDays duration multiplier : ℤ) : ℚ)

/-- The `max_possible` quantity (line 315):
`(allowance/multiplier) * total_days`. -/
def feasMaxPossible (allowance duration : ℚ) (multiplier : ℤ) : ℚ :=
  allowance / (multiplier : ℚ) * ((feasTotalDays duration multiplier : ℤ) : ℚ)

/-- Outcome of the feasibility check, carrying the values the three
branches of `menu_check_feasibility` compute and report. -/
inductive FeasResult where
  | possible (requiredDaily : ℤ) (perUnitRequired : ℚ) (extraFloor : ℤ)
  | impossible (maxPossibleFloor dailyAllowanceFloor : ℤ)
  | conditional (neededCut reportedCutPerUnit : ℤ) (newExpenses : ℚ)
deriving DecidableEq

/-- Case tag of a `FeasResult` (0 possible, 1 impossible, 2
conditional). -/
def FeasResult.tag : FeasResult → ℕ
  | .possible _ _ _ => 0
  | .impossible _ _ => 1
  | .conditional _ _ _ => 2

/-- Embedding of the calculation of `menu_check_feasibility` (lines
294-332).  `required_daily = math.ceil(goal / total_days)` (line 300)
is evaluated before any branching, so `total_days = 0` raises
`ZeroDivisionError`, modelled by `Except.error`.  The three branches
carry exactly the values the source computes: the possible branch
reports `required_daily / multiplier` and `math.floor(extra)`; the
impossible branch reports `math.floor(max_possible)` and
`math.floor(daily_allowance)`; the conditional branch computes
`needed_cut = math.ceil(goal/total_days + daily_expenses -
daily_allowance)` (line 316), reports `math.ceil(needed_cut /
multiplier)` (line 325) and builds `new_expenses = expenses -
needed_cut / multiplier` (line 329). -/
def checkFeasibility (allowance expenses duration goal : ℚ)
    (multiplier : ℤ) : Except Unit FeasResult :=
  let dailyAllowance := allowance / (multiplier : ℚ)
  let dailyExpenses := expenses / (multiplier : ℚ)
  let totalDays := feasTotalDays duration multiplier
  if totalDays = 0 then .error ()
  else
    let totalSavingPossible := feasTotalSaving allowance expenses duration multiplier
    let requiredDaily : ℤ := ⌈goal / (totalDays : ℚ)⌉
    if goal ≤ totalSavingPossible then
      .ok (.possible requiredDaily ((requiredDaily : ℚ) / (multiplier : ℚ))
        ⌊totalSavingPossible - goal⌋)
    else
      let maxPossible := feasMaxPossible allowance duration multiplier
      let neededCut : ℤ := ⌈goal / (totalDays : ℚ) + dailyExpenses - dailyAllowance⌉
      if maxPossible < goal then
        .ok (.impossible ⌊maxPossible⌋ ⌊dailyAllowance⌋)
      else
        .ok (.conditional neededCut ⌈(neededCut : ℚ) / (multiplier : ℚ)⌉
          (expenses - (neededCut : ℚ) / (multiplier : ℚ)))

/-- The plan built on the possible branch (line 312):
`Plan(plan_name, allowance, expenses, goal, int(duration), unit_name,
multiplier)` with fresh tracker state. -/
def feasibilityPlan (planName : String) (allowance expenses goal duration : ℚ)
    (unitName : String) (multiplier : ℤ) : Plan :=
  ⟨planName, allowance, expenses, goal, pyInt duration, unitName, multiplier, 0, 0⟩

/-- The plan built on the conditional branch (lines 329-331):
expenses are replaced by `expenses - needed_cut / multiplier`. -/
def conditionalPlan (planName : String) (allowance expenses goal duration : ℚ)
    (unitName : String) (multiplier : ℤ) (neededCut : ℤ) : Plan :=
  ⟨planName, allowance, expenses - (neededCut : ℚ) / (multiplier : ℚ), goal,
    pyInt duration, unitName, multiplier, 0, 0⟩

-- ====================
-- Menu 2: Time Needed
-- ====================

/-- The plan built by `menu_time_needed` (line 396):
`Plan(plan_name, allowance, expenses, goal, periods_needed, unit_name,
multiplier)` with fresh tracker state. -/
def timePlan (planName : String) (allowance expenses goal : ℚ)
    (periodsNeeded : ℤ) (unitName : String) (multiplier : ℤ) : Plan :=
  ⟨planName, allowance, expenses, goal, periodsNeeded, unitName, multiplier, 0, 0⟩

/-- Embedding of the no-interest path of `menu_time_needed` (lines
357-368): fails when `net ≤ 0` (line 358), otherwise returns
`periods_needed = math.ceil(goal / net)` (line 365). -/
def timeToGoalNoInterest (allowance expenses goal : ℚ) : Except Unit ℤ :=
  let net := allowance - expenses
  if net ≤ 0 then .error ()
  else .ok ⌈goal / net⌉

/-- One iteration of the compound-interest loop (lines 378-381):
`total_saved += net/multiplier; total_saved *= (1 + interest_rate/365)`.
Here `dailyNet` is the already-divided `net/multiplier`. -/
def interestStep (dailyNet rate total : ℚ) : ℚ :=
  (total + dailyNet) * (1 + rate / 365)

/-- Running total of the compound-interest loop after `n` iterations,
starting from `total_saved = 0.0` (line 376). -/
def totalAfter (dailyNet rate : ℚ) : ℕ → ℚ
  | 0 => 0
  | n + 1 => interestStep dailyNet rate (totalAfter dailyNet rate n)

theorem le_totalAfter (c r : ℚ) (hc : 0 < c) (hr : 0 ≤ r) :
    ∀ n : ℕ, (n : ℚ) * c ≤ totalAfter c r n := by
  intro n
  induction n with
  | zero => simp [totalAfter]
  | succ n ih =>
      have hnn : (0 : ℚ) ≤ (n : ℚ) * c :=
        mul_nonneg (by exact_mod_cast Nat.zero_le n) hc.le
      have h0 : (0 : ℚ) ≤ totalAfter c r n := le_trans hnn ih
      have hrate : (1 : ℚ) ≤ 1 + r / 365 := by
        have : (0 : ℚ) ≤ r / 365 := div_nonneg hr (by norm_num)
        linarith
      have hstep : totalAfter c r n + c ≤ (totalAfter c r n + c) * (1 + r / 365) :=
        le_mul_of_one_le_right (by linarith) hrate
      have : ((n : ℚ) + 1) * c ≤ totalAfter c r n + c := by ring_nf; linarith
      calc ((n + 1 : ℕ) : ℚ) * c = ((n : ℚ) + 1) * c := by push_cast; ring
        _ ≤ totalAfter c r n + c := this
        _ ≤ (totalAfter c r n + c) * (1 + r / 365) := hstep
        _ = totalAfter c r (n + 1) := by simp [totalAfter, interestStep]

theorem totalAfter_nonneg (c r : ℚ) (hc : 0 < c) (hr : 0 ≤ r) (n : ℕ) :
    0 ≤ totalAfter c r n :=
  le_trans (mul_nonneg (by exact_mod_cast Nat.zero_le n) hc.le)
    (le_totalAfter c r hc hr n)

/-- The compound-interest loop (lines 378-381) reaches any goal after
finitely many iterations when the per-day deposit is positive and the
rate nonnegative. -/
theorem reach_exists (c r goal : ℚ) (hc : 0 < c) (hr : 0 ≤ r) (hg : 0 < goal) :
    ∃ n : ℕ, goal ≤ totalAfter c r n := by
  refine ⟨(⌈goal / c⌉).toNat, le_trans ?_ (le_totalAfter c r hc hr _)⟩
  have hceil : goal / c ≤ (⌈goal / c⌉ : ℚ) := Int.le_ceil _
  have hnn : (0 : ℤ) ≤ ⌈goal / c⌉ := Int.ceil_nonneg (le_of_lt (div_pos hg hc))
  have hcast : ((⌈goal / c⌉).toNat : ℚ) = ((⌈goal / c⌉ : ℤ) : ℚ) := by
    exact_mod_cast Int.toNat_of_nonneg hnn
  rw [hcast]
  calc goal = goal / c * c := by field_simp
    _ ≤ ((⌈goal / c⌉ : ℤ) : ℚ) * c := by
        exact mul_le_mul_of_nonneg_right hceil hc.le

/-- Number of iterations of the `while total_saved < goal` loop (lines
378-381): the least `n` with `goal ≤ totalAfter dailyNet rate n`. -/
def daysToGoal (dailyNet rate goal : ℚ) (hc : 0 < dailyNet) (hr : 0 ≤ rate)
    (hg : 0 < goal) : ℕ :=
  Nat.find (reach_exists dailyNet rate goal hc hr hg)

/-- Embedding of the compound-interest path of `menu_time_needed`
(lines 357-382): fails when `net ≤ 0` (line 358); otherwise runs the
day-by-day simulation and returns `math.ceil(total_days / multiplier)`
(line 382).  The validated interest rate is nonnegative and the goal
positive, carried as hypotheses so the loop count is well defined. -/
def timeToGoalWithInterest (allowance expenses goal : ℚ) (multiplier : ℤ)
    (rate : ℚ) (hm : 0 < multiplier) (hr : 0 ≤ rate) (hg : 0 < goal) :
    Except Unit ℤ :=
  if h : allowance - expenses ≤ 0 then .error ()
  else
    .ok ⌈((daysToGoal ((allowance - expenses) / (multiplier : ℚ)) rate goal
      (div_pos (lt_of_not_le h) (by exact_mod_cast hm)) hr hg : ℕ) : ℚ) /
        (multiplier : ℚ)⌉

-- ==================================
-- Claims: theorems and counterexamples
-- ==================================

/-- C9: for every plan, `daily_needed` returns 0 when
`total_days - days_passed ≤ 0`, returns the negative value
`-(saved_so_far - goal) / remainingDays` when remaining days are
positive and `saved_so_far > goal`, and returns
`(goal - saved_so_far) / remainingDays` otherwise. -/
theorem daily_needed_cases (p : Plan) :
    (p.total_days - p.days_passed ≤ 0 → p.daily_needed = 0) ∧
    (0 < p.total_days - p.days_passed → p.goal < p.saved_so_far →
      p.daily_needed =
        -((p.saved_so_far - p.goal) / ((p.total_days - p.days_passed : ℤ) : ℚ))) ∧
    (0 < p.total_days - p.days_passed → p.saved_so_far ≤ p.goal →
      p.daily_needed =
        (p.goal - p.saved_so_far) / ((p.total_days - p.days_passed : ℤ) : ℚ)) := by
  simp only [Plan.daily_needed]
  refine ⟨fun h => by rw [if_pos h], fun h1 h2 => ?_, fun h1 h2 => ?_⟩
  · rw [if_neg (not_le.mpr h1), if_pos (sub_neg.mpr h2)]
  · rw [if_neg (not_le.mpr h1), if_neg (not_lt.mpr (sub_nonneg.mpr h2))]

/-- Witness for C9 at a concrete plan: 5 remaining days, nothing saved
toward a goal of 10, so 2 per day is needed. -/
theorem daily_needed_cases_witness :
    Plan.daily_needed ⟨"w", 1, 1, 10, 5, "day", 1, 0, 0⟩ = 2 := by
  have h := (daily_needed_cases ⟨"w", 1, 1, 10, 5, "day", 1, 0, 0⟩).2.2
    (by decide) (by norm_num)
  rw [h]
  norm_num [Plan.total_days]

/-- C6: on the no-interest path with positive net and positive goal,
the returned period count is the exact ceiling: `periods × net ≥ goal`
and `(periods - 1) × net < goal`. -/
theorem timeToGoal_no_interest_ceiling (allowance expenses goal : ℚ) (per : ℤ)
    (_hg : 0 < goal)
    (h : timeToGoalNoInterest allowance expenses goal = .ok per) :
    goal ≤ (per : ℚ) * (allowance - expenses) ∧
      ((per : ℚ) - 1) * (allowance - expenses) < goal := by
  simp only [timeToGoalNoInterest] at h
  by_cases hnet : allowance - expenses ≤ 0
  · rw [if_pos hnet] at h
    exact absurd h (by simp)
  · rw [if_neg hnet] at h
    have hpos : 0 < allowance - expenses := lt_of_not_le hnet
    have hper : ⌈goal / (allowance - expenses)⌉ = per := Except.ok.inj h
    subst hper
    have h1 : goal / (allowance - expenses) ≤
        (⌈goal / (allowance - expenses)⌉ : ℚ) := Int.le_ceil _
    have h2 : (⌈goal / (allowance - expenses)⌉ : ℚ) <
        goal / (allowance - expenses) + 1 := Int.ceil_lt_add_one _
    constructor
    · exact (div_le_iff₀ hpos).mp h1
    · have h3 : (⌈goal / (allowance - expenses)⌉ : ℚ) - 1 <
          goal / (allowance - expenses) := by linarith
      exact (lt_div_iff₀ hpos).mp h3

/-- Witness for C6: allowance 1000, expenses 200, goal 5000 gives
7 periods, and the ceiling property holds there. -/
theorem timeToGoal_no_interest_ceiling_witness :
    timeToGoalNoInterest 1000 200 5000 = .ok 7 ∧
      ((5000 : ℚ) ≤ ((7 : ℤ) : ℚ) * (1000 - 200) ∧
        (((7 : ℤ) : ℚ) - 1) * (1000 - 200) < 5000) := by
  have heval : timeToGoalNoInterest 1000 200 5000 = .ok 7 := by
    have hc : (⌈(25 : ℚ) / 4⌉ : ℤ) = 7 := by rw [Int.ceil_eq_iff]; norm_num
    simp only [timeToGoalNoInterest]
    norm_num [hc]
  exact ⟨heval, timeToGoal_no_interest_ceiling 1000 200 5000 7 (by norm_num) heval⟩

theorem lookupPlan_insertPlan (l : List (String × Plan)) (p : Plan) :
    lookupPlan (insertPlan l p) p.name = some p := by
  induction l with
  | nil => simp [insertPlan, lookupPlan]
  | cons kv rest ih =>
      obtain ⟨k, v⟩ := kv
      by_cases h : k = p.name
      · simp [insertPlan, lookupPlan, h]
      · simp [insertPlan, lookupPlan, h, ih]

/-- C3 (amended): `save_plan` inserts or overwrites the in-memory entry
under the plan's name but only appends one record to the file; the full
rewrite happens in `write_all_plans_to_file`, which is what produces
exactly one record per stored plan. -/
theorem save_plan_appends (s : PlansManager) (p : Plan) :
    (s.save_plan p).plans = insertPlan s.plans p ∧
    lookupPlan (s.save_plan p).plans p.name = some p ∧
    (s.save_plan p).file = s.file ++ [p] ∧
    s.write_all_plans_to_file.file = s.plans.map Prod.snd :=
  ⟨rfl, lookupPlan_insertPlan s.plans p, rfl, rfl⟩

/-- C3 counterexample: saving two plans with the same name leaves two
records in the file while the store holds a single plan, so a save does
not trigger a complete rewrite and the file keeps a stale record. -/
theorem save_plan_no_rewrite :
    (((PlansManager.mk [] []).save_plan ⟨"a", 1, 1, 1, 1, "day", 1, 0, 0⟩).save_plan
        ⟨"a", 2, 1, 1, 1, "day", 1, 0, 0⟩).plans.length = 1 ∧
    (((PlansManager.mk [] []).save_plan ⟨"a", 1, 1, 1, 1, "day", 1, 0, 0⟩).save_plan
        ⟨"a", 2, 1, 1, 1, "day", 1, 0, 0⟩).file.length = 2 :=
  ⟨rfl, rfl⟩

/-- C4 (amended): loading from a missing file yields an empty store,
and a line whose pipe-separated field count is not 9 is skipped without
affecting the rest of the load. -/
theorem load_skips_wrong_field_count :
    load_plans_from_file none = .ok [] ∧
    ∀ (plans : List (String × Plan)) (line : String),
      (splitPipe (pyStrip line)).length ≠ 9 →
      parseRecordLine plans line = .ok plans := by
  refine ⟨rfl, fun plans line h => ?_⟩
  unfold parseRecordLine
  split
  · next n a e g per u m sv d heq => exact absurd (by rw [heq]; simp) h
  · rfl

/-- Witness for C4: the two-field line `a|b` is skipped. -/
theorem load_skips_wrong_field_count_witness :
    (splitPipe (pyStrip "a|b")).length ≠ 9 ∧ parseRecordLine [] "a|b" = .ok [] :=
  ⟨by decide, load_skips_wrong_field_count.2 [] "a|b" (by decide)⟩

/-- C4 counterexample: a line with exactly 9 fields whose allowance
field `x` is not numeric makes the whole load fail (the `ValueError`
from `float` is not caught), so the well-formed second record is never
loaded — the malformed record is not dropped individually. -/
theorem load_aborts_on_bad_numeric :
    load_plans_from_file (some ["p|x|1|1|1|day|1|0|0", "q|1|1|1|1|day|1|0|0"]) =
      .error () := rfl

/-- C1 (amended): for positive inputs with duration at least 1 unit,
`checkFeasibility` yields exactly one of the three cases, characterised
by `totalSavingPossible` and `maxPossible`; `totalSavingPossible = goal`
gives the Possible case, while `maxPossible = goal` (the comparison on
line 318 being strict) gives Conditionally-Possible, not the
Impossible-Even-Zero-Expenses verdict. -/
theorem checkFeasibility_cases (a e d g : ℚ) (m : ℤ)
    (_ha : 0 < a) (_he : 0 < e) (_hg : 0 < g) (hd : 1 ≤ d) (hm : 0 < m) :
    ∃ r, checkFeasibility a e d g m = .ok r ∧
      (r.tag = 0 ↔ g ≤ feasTotalSaving a e d m) ∧
      (r.tag = 1 ↔ feasTotalSaving a e d m < g ∧ feasMaxPossible a d m < g) ∧
      (r.tag = 2 ↔ feasTotalSaving a e d m < g ∧ g ≤ feasMaxPossible a d m) ∧
      (feasTotalSaving a e d m = g → r.tag = 0) ∧
      (feasMaxPossible a d m = g → r.tag ≠ 1) := by
  have hpy : (1 : ℤ) ≤ pyInt d := by
    rw [pyInt, if_pos (le_trans zero_le_one hd)]
    exact Int.le_floor.mpr (by exact_mod_cast hd)
  have htd : feasTotalDays d m ≠ 0 :=
    ne_of_gt (mul_pos (lt_of_lt_of_le zero_lt_one hpy) hm)
  simp only [checkFeasibility]
  rw [if_neg htd]
  by_cases h1 : g ≤ feasTotalSaving a e d m
  · rw [if_pos h1]
    refine ⟨_, rfl, ?_, ?_, ?_, fun _ => rfl, fun _ => by simp [FeasResult.tag]⟩
    · exact iff_of_true rfl h1
    · exact iff_of_false (by simp [FeasResult.tag])
        (fun hc => absurd hc.1 (not_lt.mpr h1))
    · exact iff_of_false (by simp [FeasResult.tag])
        (fun hc => absurd hc.1 (not_lt.mpr h1))
  · rw [if_neg h1]
    by_cases h2 : feasMaxPossible a d m < g
    · rw [if_pos h2]
      refine ⟨_, rfl, ?_, ?_, ?_, fun hc => absurd (le_of_eq hc.symm) h1, ?_⟩
      · exact iff_of_false (by simp [FeasResult.tag]) h1
      · exact iff_of_true rfl ⟨not_le.mp h1, h2⟩
      · exact iff_of_false (by simp [FeasResult.tag])
          (fun hc => absurd hc.2 (not_le.mpr h2))
      · intro hc
        exact absurd (le_of_eq hc.symm) (not_le.mpr h2)
    · rw [if_neg h2]
      refine ⟨_, rfl, ?_, ?_, ?_, fun hc => absurd (le_of_eq hc.symm) h1,
        fun _ => by simp [FeasResult.tag]⟩
      · exact iff_of_false (by simp [FeasResult.tag]) h1
      · exact iff_of_false (by simp [FeasResult.tag])
          (fun hc => absurd hc.2 h2)
      · exact iff_of_true rfl ⟨not_le.mp h1, not_lt.mp h2⟩

/-- Witness for C1 at allowance 2, expenses 1, duration 1, goal 1,
multiplier 1: the check succeeds and lands in a case. -/
theorem checkFeasibility_cases_witness :
    ∃ r, checkFeasibility 2 1 1 1 1 = .ok r := by
  obtain ⟨r, hr, -⟩ := checkFeasibility_cases 2 1 1 1 1 (by norm_num)
    (by norm_num) (by norm_num) (by norm_num) (by norm_num)
  exact ⟨r, hr⟩

/-- C1 counterexample: at allowance 100, expenses 50, duration 1, goal
100, multiplier 1, `maxPossible` equals the goal exactly, yet the
verdict is the Conditionally-Possible case (line 318 compares with `<`),
refuting the claim that `maxPossible = goal` yields the
Impossible-Even-Zero-Expenses verdict. -/
theorem feasibility_boundary_maxPossible :
    feasMaxPossible 100 1 1 = 100 ∧
    checkFeasibility 100 50 1 100 1 = .ok (.conditional 50 50 0) := by
  have hpy : pyInt 1 = 1 := by rw [pyInt]; norm_num
  constructor
  · norm_num [feasMaxPossible, feasTotalDays, hpy]
  · have hc : (⌈(100 : ℚ)⌉ : ℤ) = 100 := by rw [Int.ceil_eq_iff]; norm_num
    have hc2 : (⌈(50 : ℚ)⌉ : ℤ) = 50 := by rw [Int.ceil_eq_iff]; norm_num
    simp only [checkFeasibility, feasTotalDays, feasTotalSaving, feasMaxPossible, hpy]
    norm_num [hc, hc2]

/-- C2: whenever `checkFeasibility` lands in the Conditionally-Possible
case, the cut it carries is exactly
`⌈goal/totalDays + dailyExpenses - dailyAllowance⌉`, the reported
per-unit figure is that cut divided by the multiplier rounded up, and
the adjusted expenses subtract the unit-converted cut. -/
theorem conditional_needed_cut (a e d g : ℚ) (m : ℤ) (cut rep : ℤ) (newExp : ℚ)
    (h : checkFeasibility a e d g m = .ok (.conditional cut rep newExp)) :
    cut = ⌈g / ((feasTotalDays d m : ℤ) : ℚ) + e / (m : ℚ) - a / (m : ℚ)⌉ ∧
    rep = ⌈(cut : ℚ) / (m : ℚ)⌉ ∧
    newExp = e - (cut : ℚ) / (m : ℚ) := by
  simp only [checkFeasibility] at h
  by_cases h0 : feasTotalDays d m = 0
  · rw [if_pos h0] at h
    exact absurd h (by simp)
  rw [if_neg h0] at h
  by_cases h1 : g ≤ feasTotalSaving a e d m
  · rw [if_pos h1] at h
    exact absurd h (by simp)
  rw [if_neg h1] at h
  by_cases h2 : feasMaxPossible a d m < g
  · rw [if_pos h2] at h
    exact absurd h (by simp)
  rw [if_neg h2] at h
  have hinj := Except.ok.inj h
  simp only [FeasResult.conditional.injEq] at hinj
  obtain ⟨e1, e2, e3⟩ := hinj
  refine ⟨e1.symm, ?_, ?_⟩
  · rw [← e2, e1]
  · rw [← e3, e1]

/-- Witness for C2: the spec scenario allowance 500, expenses 300,
duration 30, goal 10000, multiplier 1 lands in the conditional case
with required cut `⌈133.33⌉ = 134` per day. -/
theorem conditional_needed_cut_witness :
    checkFeasibility 500 300 30 10000 1 = .ok (.conditional 134 134 166) ∧
    (134 : ℤ) = ⌈(10000 : ℚ) / ((feasTotalDays 30 1 : ℤ) : ℚ) + 300 / 1 - 500 / 1⌉ := by
  have hpy : pyInt 30 = 30 := by rw [pyInt]; norm_num
  have heval : checkFeasibility 500 300 30 10000 1 = .ok (.conditional 134 134 166) := by
    have hc : (⌈(400 : ℚ) / 3⌉ : ℤ) = 134 := by rw [Int.ceil_eq_iff]; norm_num
    simp only [checkFeasibility, feasTotalDays, feasTotalSaving, feasMaxPossible, hpy]
    norm_num [hc]
  exact ⟨heval, (conditional_needed_cut 500 300 30 10000 1 134 134 166 heval).1⟩

/-- C5 (amended): the invariants hold for every plan created by the
Possible feasibility branch or the time-to-goal branch from validated
inputs, and are preserved by `add_saved`, `update_allowance`,
`update_expenses` and `reset`; the Conditionally-Possible branch is
excluded, since it can produce nonpositive expenses (see the
counterexample), and loading applies no validation. -/
theorem plan_invariants_preserved :
    (∀ (p : Plan) (a : ℚ) (q : Plan), planInvariant p → p.add_saved a = .ok q →
      planInvariant q) ∧
    (∀ (p : Plan) (a : ℚ) (q : Plan), planInvariant p → p.update_allowance a = .ok q →
      planInvariant q) ∧
    (∀ (p : Plan) (a : ℚ) (q : Plan), planInvariant p → p.update_expenses a = .ok q →
      planInvariant q) ∧
    (∀ p : Plan, planInvariant p → planInvariant p.reset) ∧
    (∀ (n u : String) (a e g d : ℚ) (m : ℤ), 0 < a → 0 < e → 0 < g → 1 ≤ d →
      0 < m → planInvariant (feasibilityPlan n a e g d u m)) ∧
    (∀ (n u : String) (a e g : ℚ) (per m : ℤ), 0 < a → 0 < e → 0 < g →
      0 < per → planInvariant (timePlan n a e g per u m)) := by
  refine ⟨?_, ?_, ?_, ?_, ?_, ?_⟩
  · intro p a q hp h
    simp only [Plan.add_saved] at h
    split_ifs at h with ha
    obtain ⟨h1, h2, h3, h4, h5, h6⟩ := hp
    cases Except.ok.inj h
    refine ⟨h1, h2, h3, h4, ?_, ?_⟩
    · show 0 ≤ p.saved_so_far + a
      push_neg at ha
      linarith
    · show 0 ≤ p.days_passed + 1
      omega
  · intro p a q hp h
    simp only [Plan.update_allowance] at h
    split_ifs at h with ha
    obtain ⟨h1, h2, h3, h4, h5, h6⟩ := hp
    cases Except.ok.inj h
    refine ⟨?_, h2, h3, h4, h5, h6⟩
    show 0 < a
    push_neg at ha
    exact ha
  · intro p a q hp h
    simp only [Plan.update_expenses] at h
    split_ifs at h with ha
    obtain ⟨h1, h2, h3, h4, h5, h6⟩ := hp
    cases Except.ok.inj h
    refine ⟨h1, ?_, h3, h4, h5, h6⟩
    show 0 < a
    push_neg at ha
    exact ha
  · intro p hp
    obtain ⟨h1, h2, h3, h4, h5, h6⟩ := hp
    exact ⟨h1, h2, h3, h4, le_refl 0, le_refl 0⟩
  · intro n u a e g d m ha he hg hd hm
    have hpy : (1 : ℤ) ≤ pyInt d := by
      rw [pyInt, if_pos (le_trans zero_le_one hd)]
      exact Int.le_floor.mpr (by exact_mod_cast hd)
    exact ⟨ha, he, hg, lt_of_lt_of_le zero_lt_one hpy, le_refl 0, le_refl 0⟩
  · intro n u a e g per m ha he hg hper
    exact ⟨ha, he, hg, hper, le_refl 0, le_refl 0⟩

/-- Witness for C5: a plan created from validated inputs on the
Possible branch satisfies the invariants. -/
theorem plan_invariants_preserved_witness :
    planInvariant (feasibilityPlan "w" 2 1 3 1 "day" 1) :=
  plan_invariants_preserved.2.2.2.2.1 "w" "day" 2 1 3 1 1 (by norm_num)
    (by norm_num) (by norm_num) (by norm_num) (by norm_num)

/-- C5 counterexample: on the Conditionally-Possible path with
allowance 10, expenses 0.5, duration 1, goal 10, multiplier 1, the
computed cut is `⌈10 + 0.5 - 10⌉ = 1`, so the plan the menu saves has
expenses `0.5 - 1 = -0.5 < 0` — a reachable plan violating the
expenses-positivity invariant. -/
theorem conditional_plan_invariant_violation :
    checkFeasibility 10 (1/2) 1 10 1 = .ok (.conditional 1 1 (-(1/2))) ∧
    (conditionalPlan "p" 10 (1/2) 10 1 "day" 1 1).expenses = -(1/2) ∧
    ¬ planInvariant (conditionalPlan "p" 10 (1/2) 10 1 "day" 1 1) := by
  have hpy : pyInt 1 = 1 := by rw [pyInt]; norm_num
  have hc : (⌈(1 : ℚ)/2⌉ : ℤ) = 1 := by rw [Int.ceil_eq_iff]; norm_num
  refine ⟨?_, ?_, ?_⟩
  · simp only [checkFeasibility, feasTotalDays, feasTotalSaving, feasMaxPossible, hpy]
    norm_num [hc]
  · norm_num [conditionalPlan]
  · intro hinv
    obtain ⟨-, h2, -⟩ := hinv
    norm_num [conditionalPlan] at h2

theorem totalAfter_mono_rate (c r1 r2 : ℚ) (hc : 0 < c) (hr1 : 0 ≤ r1)
    (h12 : r1 ≤ r2) : ∀ n, totalAfter c r1 n ≤ totalAfter c r2 n := by
  intro n
  induction n with
  | zero => exact le_refl 0
  | succ n ih =>
      have h0 : 0 ≤ totalAfter c r1 n := totalAfter_nonneg c r1 hc hr1 n
      have hb : 0 ≤ totalAfter c r2 n + c := by
        have := totalAfter_nonneg c r2 hc (le_trans hr1 h12) n
        linarith
      simp only [totalAfter, interestStep]
      exact mul_le_mul (by linarith) (by linarith) (by linarith) hb

/-- C7: the compound-interest simulation is monotone in the rate: with
fixed positive net, positive multiplier, and positive goal, a rate
`r2 ≥ r1 ≥ 0` never needs more simulated days than `r1`. -/
theorem interest_rate_monotone (net mq r1 r2 g : ℚ) (hn : 0 < net) (hm : 0 < mq)
    (hr1 : 0 ≤ r1) (h12 : r1 ≤ r2) (hg : 0 < g) :
    daysToGoal (net / mq) r2 g (div_pos hn hm) (le_trans hr1 h12) hg ≤
      daysToGoal (net / mq) r1 g (div_pos hn hm) hr1 hg := by
  simp only [daysToGoal]
  apply Nat.find_mono
  intro n h
  exact le_trans h (totalAfter_mono_rate (net / mq) r1 r2 (div_pos hn hm) hr1 h12 n)

/-- Witness for C7 with net 1, multiplier 1, goal 2, rates 0 and 1. -/
theorem interest_rate_monotone_witness :
    daysToGoal ((1 : ℚ) / 1) 1 2 (div_pos one_pos one_pos)
        (le_trans le_rfl zero_le_one) (by norm_num) ≤
      daysToGoal ((1 : ℚ) / 1) 0 2 (div_pos one_pos one_pos) le_rfl (by norm_num) :=
  interest_rate_monotone 1 1 0 1 2 one_pos one_pos le_rfl zero_le_one (by norm_num)

/-- C8: both paths of `menu_time_needed` fail whenever
allowance ≤ expenses (net ≤ 0), and with positive daily net,
nonnegative rate and positive goal the day-by-day compound simulation
terminates: `daysToGoal` is the first day on which the running total
reaches the goal. -/
theorem time_to_goal_guard_and_termination :
    (∀ a e g : ℚ, a ≤ e → timeToGoalNoInterest a e g = .error ()) ∧
    (∀ (a e g : ℚ) (m : ℤ) (r : ℚ) (hm : 0 < m) (hr : 0 ≤ r) (hg : 0 < g),
      a ≤ e → timeToGoalWithInterest a e g m r hm hr hg = .error ()) ∧
    (∀ (c r g : ℚ) (hc : 0 < c) (hr : 0 ≤ r) (hg : 0 < g),
      g ≤ totalAfter c r (daysToGoal c r g hc hr hg) ∧
      ∀ n < daysToGoal c r g hc hr hg, totalAfter c r n < g) := by
  refine ⟨fun a e g h => ?_, fun a e g m r hm hr hg h => ?_,
    fun c r g hc hr hg => ⟨?_, ?_⟩⟩
  · simp only [timeToGoalNoInterest]
    rw [if_pos (by linarith : a - e ≤ 0)]
  · simp only [timeToGoalWithInterest]
    rw [dif_pos (by linarith : a - e ≤ 0)]
  · exact Nat.find_spec (reach_exists c r g hc hr hg)
  · intro n hlt
    exact not_le.mp (Nat.find_min (reach_exists c r g hc hr hg) hlt)

/-- Witness for C8: the guard fires at allowance 1 ≤ expenses 2, and
with daily net 1, rate 0, goal 5 the simulation reaches the goal. -/
theorem time_to_goal_guard_witness :
    timeToGoalNoInterest 1 2 5 = .error () ∧
    (5 : ℚ) ≤ totalAfter 1 0 (daysToGoal 1 0 5 one_pos le_rfl (by norm_num)) :=
  ⟨time_to_goal_guard_and_termination.1 1 2 5 (by norm_num),
   (time_to_goal_guard_and_termination.2.2 1 0 5 one_pos le_rfl (by norm_num)).1⟩

/-- C10: `input_validation` accepts the duration string `"0.5"` (any
positive decimal passes), `int()` truncates it to 0, so
`total_days = int(duration) * multiplier = 0` and
`math.ceil(goal / total_days)` on line 300 divides by zero instead of
producing a feasibility verdict. -/
theorem duration_truncation_division_by_zero :
    input_validation "0.5" = .ok (1/2) ∧
    feasTotalDays (1/2) 1 = 0 ∧
    checkFeasibility 100 50 (1/2) 1000 1 = .error () := by
  have hpy : pyInt (1/2) = 0 := by rw [pyInt]; norm_num
  refine ⟨?_, ?_, ?_⟩
  · rw [input_validation,
      show parseFloat (cleanNumber "0.5") = some (ratVal false 0 5 1) from rfl]
    norm_num [ratVal]
  · rw [feasTotalDays, hpy]
    norm_num
  · simp only [checkFeasibility, feasTotalDays, hpy]
    norm_num
